import Mathlib

/-
Verification of mlp/penalties.py: L1Penalty, L2Penalty and L1L2MixPenalty.

Embedding choices: numpy parameter arrays become flat lists of rationals
(shape reduces to length); numpy elementwise operations become List.map /
List.zipWith; np.sum becomes List.sum.  The `assert coefficient > 0.0`
in the constructors is modelled by a fallible constructor mk? returning
Except String, carrying the assertion message.  For the frame claim the
method bodies are additionally given in explicit state-passing form
(result, object-after, array-after).
-/

namespace Penalties

/-- np.sign on a scalar: 1 for positive, -1 for negative, 0 for zero. -/
def npSign (x : ℚ) : ℚ :=
  if 0 < x then 1 else if x < 0 then -1 else 0

/-- np.sign applied elementwise to an array. -/
def npSignArr (A : List ℚ) : List ℚ :=
  A.map npSign

/-- np.abs applied elementwise to an array. -/
def npAbs (A : List ℚ) : List ℚ :=
  A.map (fun x => |x|)

/-- parameter**2: elementwise square of an array. -/
def npSquare (A : List ℚ) : List ℚ :=
  A.map (fun x => x ^ 2)

/-- np.sum over all elements of an array. -/
def npSum (A : List ℚ) : ℚ :=
  A.sum

/-- scalar * array broadcasting. -/
def smul (c : ℚ) (A : List ℚ) : List ℚ :=
  A.map (fun x => c * x)

/-- Elementwise addition of two arrays of equal shape. -/
def addArr (A B : List ℚ) : List ℚ :=
  List.zipWith (fun x y => x + y) A B

/-- L1 parameter penalty object: one coefficient fixed at construction. -/
structure L1Penalty where
  coefficient : ℚ

/-- Constructor for L1Penalty: `assert coefficient > 0.0, "Penalty
coefficient must be positive."` then store the coefficient. -/
def L1Penalty.mk? (coefficient : ℚ) : Except String L1Penalty :=
  if coefficient > 0 then Except.ok ⟨coefficient⟩
  else Except.error "Penalty coefficient must be positive."

/-- L1Penalty.__call__: `self.coefficient * np.sum(np.abs(parameter))`. -/
def L1Penalty.value (self : L1Penalty) (parameter : List ℚ) : ℚ :=
  self.coefficient * npSum (npAbs parameter)

/-- L1Penalty.grad: `self.coefficient * np.sign(parameter)`. -/
def L1Penalty.grad (self : L1Penalty) (parameter : List ℚ) : List ℚ :=
  smul self.coefficient (npSignArr parameter)

/-- L2 parameter penalty object: one coefficient fixed at construction. -/
structure L2Penalty where
  coefficient : ℚ

/-- Constructor for L2Penalty: `assert coefficient > 0.0, "Penalty
coefficient must be positive."` then store the coefficient. -/
def L2Penalty.mk? (coefficient : ℚ) : Except String L2Penalty :=
  if coefficient > 0 then Except.ok ⟨coefficient⟩
  else Except.error "Penalty coefficient must be positive."

/-- L2Penalty.__call__: `0.5 * self.coefficient * np.sum(parameter**2)`. -/
def L2Penalty.value (self : L2Penalty) (parameter : List ℚ) : ℚ :=
  (1 / 2) * self.coefficient * npSum (npSquare parameter)

/-- L2Penalty.grad: `self.coefficient * parameter`. -/
def L2Penalty.grad (self : L2Penalty) (parameter : List ℚ) : List ℚ :=
  smul self.coefficient parameter

/-- L1 and L2 mix penalty object: two coefficients fixed at construction. -/
structure L1L2MixPenalty where
  l1_coefficient : ℚ
  l2_coefficient : ℚ

/-- Constructor for L1L2MixPenalty: stores both coefficients with no
positivity assertion (the source constructor contains none). -/
def L1L2MixPenalty.mk? (l1_coefficient l2_coefficient : ℚ) :
    Except String L1L2MixPenalty :=
  Except.ok ⟨l1_coefficient, l2_coefficient⟩

/-- L1L2MixPenalty.__call__: recomputes the two formulas independently and
adds them. -/
def L1L2MixPenalty.value (self : L1L2MixPenalty) (parameter : List ℚ) : ℚ :=
  let l1_penalty := self.l1_coefficient * npSum (npAbs parameter)
  let l2_penalty := (1 / 2) * self.l2_coefficient * npSum (npSquare parameter)
  l1_penalty + l2_penalty

/-- L1L2MixPenalty.grad: recomputes both gradients and adds them
elementwise. -/
def L1L2MixPenalty.grad (self : L1L2MixPenalty) (parameter : List ℚ) : List ℚ :=
  let l1_grad := smul self.l1_coefficient (npSignArr parameter)
  let l2_grad := smul self.l2_coefficient parameter
  addArr l1_grad l2_grad

/-- State-passing form of L1Penalty.__call__: the body reads self and
parameter but assigns to neither, so they are returned alongside the
result. -/
def L1Penalty.callS (self : L1Penalty) (parameter : List ℚ) :
    ℚ × L1Penalty × List ℚ :=
  let penalty := self.coefficient * npSum (npAbs parameter)
  (penalty, self, parameter)

/-- State-passing form of L1Penalty.grad. -/
def L1Penalty.gradS (self : L1Penalty) (parameter : List ℚ) :
    List ℚ × L1Penalty × List ℚ :=
  let g := smul self.coefficient (npSignArr parameter)
  (g, self, parameter)

/-- State-passing form of L2Penalty.__call__. -/
def L2Penalty.callS (self : L2Penalty) (parameter : List ℚ) :
    ℚ × L2Penalty × List ℚ :=
  let penalty := (1 / 2) * self.coefficient * npSum (npSquare parameter)
  (penalty, self, parameter)

/-- State-passing form of L2Penalty.grad. -/
def L2Penalty.gradS (self : L2Penalty) (parameter : List ℚ) :
    List ℚ × L2Penalty × List ℚ :=
  let g := smul self.coefficient parameter
  (g, self, parameter)

/-- State-passing form of L1L2MixPenalty.__call__. -/
def L1L2MixPenalty.callS (self : L1L2MixPenalty) (parameter : List ℚ) :
    ℚ × L1L2MixPenalty × List ℚ :=
  let l1_penalty := self.l1_coefficient * npSum (npAbs parameter)
  let l2_penalty := (1 / 2) * self.l2_coefficient * npSum (npSquare parameter)
  (l1_penalty + l2_penalty, self, parameter)

/-- State-passing form of L1L2MixPenalty.grad. -/
def L1L2MixPenalty.gradS (self : L1L2MixPenalty) (parameter : List ℚ) :
    List ℚ × L1L2MixPenalty × List ℚ :=
  let l1_grad := smul self.l1_coefficient (npSignArr parameter)
  let l2_grad := smul self.l2_coefficient parameter
  (addArr l1_grad l2_grad, self, parameter)

/-- A sum of elementwise absolute values is non-negative. -/
lemma sum_npAbs_nonneg (A : List ℚ) : 0 ≤ npSum (npAbs A) := by
  induction A with
  | nil => simp [npSum, npAbs]
  | cons a t ih =>
    simp only [npSum, npAbs, List.map_cons, List.sum_cons]
    have ha : (0 : ℚ) ≤ |a| := abs_nonneg a
    have ht : (0 : ℚ) ≤ (t.map (fun x => |x|)).sum := ih
    linarith

/-- A sum of elementwise absolute values vanishes iff every element is 0. -/
lemma sum_npAbs_eq_zero_iff (A : List ℚ) :
    npSum (npAbs A) = 0 ↔ ∀ x ∈ A, x = 0 := by
  induction A with
  | nil => simp [npSum, npAbs]
  | cons a t ih =>
    simp only [npSum, npAbs, List.map_cons, List.sum_cons, List.mem_cons]
    have ha : (0 : ℚ) ≤ |a| := abs_nonneg a
    have ht : (0 : ℚ) ≤ (t.map (fun x => |x|)).sum := sum_npAbs_nonneg t
    constructor
    · intro h x hx
      have hpair : |a| = 0 ∧ (t.map (fun x => |x|)).sum = 0 := by
        constructor <;> linarith
      rcases hx with hx | hx
      · rw [hx]
        exact abs_eq_zero.mp hpair.1
      · exact (ih.mp hpair.2) x hx
    · intro h
      have ha0 : a = 0 := h a (Or.inl rfl)
      have ht0 : (t.map (fun x => |x|)).sum = 0 :=
        ih.mpr (fun x hx => h x (Or.inr hx))
      rw [ha0, ht0, abs_zero, zero_add]

/-- A sum of elementwise squares is non-negative. -/
lemma sum_npSquare_nonneg (A : List ℚ) : 0 ≤ npSum (npSquare A) := by
  induction A with
  | nil => simp [npSum, npSquare]
  | cons a t ih =>
    simp only [npSum, npSquare, List.map_cons, List.sum_cons]
    have ha : (0 : ℚ) ≤ a ^ 2 := sq_nonneg a
    have ht : (0 : ℚ) ≤ (t.map (fun x => x ^ 2)).sum := ih
    linarith

/-- A sum of elementwise squares vanishes iff every element is 0. -/
lemma sum_npSquare_eq_zero_iff (A : List ℚ) :
    npSum (npSquare A) = 0 ↔ ∀ x ∈ A, x = 0 := by
  induction A with
  | nil => simp [npSum, npSquare]
  | cons a t ih =>
    simp only [npSum, npSquare, List.map_cons, List.sum_cons, List.mem_cons]
    have ha : (0 : ℚ) ≤ a ^ 2 := sq_nonneg a
    have ht : (0 : ℚ) ≤ (t.map (fun x => x ^ 2)).sum := sum_npSquare_nonneg t
    constructor
    · intro h x hx
      have hpair : a ^ 2 = 0 ∧ (t.map (fun x => x ^ 2)).sum = 0 := by
        constructor <;> linarith
      rcases hx with hx | hx
      · rw [hx]
        exact pow_eq_zero_iff (by norm_num) |>.mp hpair.1
      · exact (ih.mp hpair.2) x hx
    · intro h
      have ha0 : a = 0 := h a (Or.inl rfl)
      have ht0 : (t.map (fun x => x ^ 2)).sum = 0 :=
        ih.mpr (fun x hx => h x (Or.inr hx))
      rw [ha0, ht0]
      norm_num

/-- getD through a map, at an in-range index. -/
lemma getD_map (f : ℚ → ℚ) (A : List ℚ) (i : ℕ) (hi : i < A.length) :
    (A.map f).getD i 0 = f (A.getD i 0) := by
  induction A generalizing i with
  | nil => simp at hi
  | cons a t ih =>
    cases i with
    | zero => simp
    | succ n =>
      simp only [List.map_cons, List.getD_cons_succ]
      exact ih n (by simpa using hi)

end Penalties

namespace Penalties

/-- C1: for c > 0, L1Penalty(c).value(A) is c * sum of absolute values,
non-negative, and zero iff every element of A is zero. -/
theorem l1_value_spec (c : ℚ) (A : List ℚ) (hc : 0 < c) :
    L1Penalty.value ⟨c⟩ A = c * (A.map (fun x => |x|)).sum ∧
    0 ≤ L1Penalty.value ⟨c⟩ A ∧
    (L1Penalty.value ⟨c⟩ A = 0 ↔ ∀ x ∈ A, x = 0) := by
  refine ⟨rfl, ?_, ?_⟩
  · exact mul_nonneg hc.le (sum_npAbs_nonneg A)
  · rw [show L1Penalty.value ⟨c⟩ A = c * npSum (npAbs A) from rfl,
      mul_eq_zero]
    constructor
    · intro h
      rcases h with h | h
      · exact absurd h hc.ne.symm
      · exact (sum_npAbs_eq_zero_iff A).mp h
    · intro h
      exact Or.inr ((sum_npAbs_eq_zero_iff A).mpr h)

/-- Witness for C1 at c = 1, A = [1, -2]. -/
theorem l1_value_spec_witness :
    L1Penalty.value ⟨1⟩ [1, -2] = 1 * (([1, -2] : List ℚ).map (fun x => |x|)).sum ∧
    0 ≤ L1Penalty.value ⟨1⟩ [1, -2] ∧
    (L1Penalty.value ⟨1⟩ [1, -2] = 0 ↔ ∀ x ∈ ([1, -2] : List ℚ), x = 0) :=
  l1_value_spec 1 [1, -2] (by norm_num)

/-- C2: for c > 0, L1Penalty(c).grad(A) has the same shape as A and its
i-th element is c, -c or 0 according to the sign of A's i-th element. -/
theorem l1_grad_spec (c : ℚ) (A : List ℚ) (hc : 0 < c) :
    (L1Penalty.grad ⟨c⟩ A).length = A.length ∧
    ∀ i, i < A.length →
      (L1Penalty.grad ⟨c⟩ A).getD i 0 =
        if 0 < A.getD i 0 then c else if A.getD i 0 < 0 then -c else 0 := by
  constructor
  · simp [L1Penalty.grad, smul, npSignArr]
  · intro i hi
    have h1 : L1Penalty.grad ⟨c⟩ A = A.map (fun x => c * npSign x) := by
      simp [L1Penalty.grad, smul, npSignArr, List.map_map]
    rw [h1, getD_map _ A i hi]
    unfold npSign
    split_ifs <;> ring

/-- Witness for C2 at c = 2, A = [3, 0, -1]. -/
theorem l1_grad_spec_witness :
    (L1Penalty.grad ⟨2⟩ [3, 0, -1]).length = ([3, 0, -1] : List ℚ).length ∧
    ∀ i, i < ([3, 0, -1] : List ℚ).length →
      (L1Penalty.grad ⟨2⟩ [3, 0, -1]).getD i 0 =
        if 0 < ([3, 0, -1] : List ℚ).getD i 0 then 2
        else if ([3, 0, -1] : List ℚ).getD i 0 < 0 then -2 else 0 :=
  l1_grad_spec 2 [3, 0, -1] (by norm_num)

/-- C3: for c > 0, L2Penalty(c).value(A) is 0.5 * c * sum of squares,
non-negative, and zero iff every element of A is zero. -/
theorem l2_value_spec (c : ℚ) (A : List ℚ) (hc : 0 < c) :
    L2Penalty.value ⟨c⟩ A = (1 / 2) * c * (A.map (fun x => x ^ 2)).sum ∧
    0 ≤ L2Penalty.value ⟨c⟩ A ∧
    (L2Penalty.value ⟨c⟩ A = 0 ↔ ∀ x ∈ A, x = 0) := by
  refine ⟨rfl, ?_, ?_⟩
  · exact mul_nonneg (mul_nonneg (by norm_num) hc.le) (sum_npSquare_nonneg A)
  · rw [show L2Penalty.value ⟨c⟩ A = (1 / 2) * c * npSum (npSquare A) from rfl,
      mul_eq_zero, mul_eq_zero]
    constructor
    · intro h
      rcases h with (h | h) | h
      · norm_num at h
      · exact absurd h hc.ne.symm
      · exact (sum_npSquare_eq_zero_iff A).mp h
    · intro h
      exact Or.inr ((sum_npSquare_eq_zero_iff A).mpr h)

/-- Witness for C3 at c = 1, A = [1, -2]. -/
theorem l2_value_spec_witness :
    L2Penalty.value ⟨1⟩ [1, -2] =
      (1 / 2) * 1 * (([1, -2] : List ℚ).map (fun x => x ^ 2)).sum ∧
    0 ≤ L2Penalty.value ⟨1⟩ [1, -2] ∧
    (L2Penalty.value ⟨1⟩ [1, -2] = 0 ↔ ∀ x ∈ ([1, -2] : List ℚ), x = 0) :=
  l2_value_spec 1 [1, -2] (by norm_num)

/-- C4: for c > 0, L2Penalty(c).grad(A) has the same shape as A and equals
c * A elementwise, exactly. -/
theorem l2_grad_spec (c : ℚ) (A : List ℚ) (hc : 0 < c) :
    (L2Penalty.grad ⟨c⟩ A).length = A.length ∧
    L2Penalty.grad ⟨c⟩ A = A.map (fun x => c * x) := by
  exact ⟨by simp [L2Penalty.grad, smul], rfl⟩

/-- Witness for C4 at c = 3, A = [2, -5]. -/
theorem l2_grad_spec_witness :
    (L2Penalty.grad ⟨3⟩ [2, -5]).length = ([2, -5] : List ℚ).length ∧
    L2Penalty.grad ⟨3⟩ [2, -5] = ([2, -5] : List ℚ).map (fun x => 3 * x) :=
  l2_grad_spec 3 [2, -5] (by norm_num)

/-- C5: L1Penalty and L2Penalty construction fails with the message
"Penalty coefficient must be positive." exactly when c is non-positive,
and yields the object holding c exactly when c is positive. -/
theorem construction_validation_spec (c : ℚ) :
    (c ≤ 0 →
      L1Penalty.mk? c = Except.error "Penalty coefficient must be positive." ∧
      L2Penalty.mk? c = Except.error "Penalty coefficient must be positive.") ∧
    (0 < c →
      L1Penalty.mk? c = Except.ok ⟨c⟩ ∧
      L2Penalty.mk? c = Except.ok ⟨c⟩) := by
  constructor
  · intro h
    constructor <;> simp [L1Penalty.mk?, L2Penalty.mk?, not_lt.mpr h]
  · intro h
    constructor <;> simp [L1Penalty.mk?, L2Penalty.mk?, h]

/-- Witness for C5: construction fails at 0 and -1, succeeds at 1. -/
theorem construction_validation_spec_witness :
    L1Penalty.mk? 0 = Except.error "Penalty coefficient must be positive." ∧
    L1Penalty.mk? (-1) = Except.error "Penalty coefficient must be positive." ∧
    L1Penalty.mk? 1 = Except.ok ⟨1⟩ :=
  ⟨((construction_validation_spec 0).1 (by norm_num)).1,
   ((construction_validation_spec (-1)).1 (by norm_num)).1,
   ((construction_validation_spec 1).2 (by norm_num)).1⟩

/-- C6: L1L2MixPenalty construction always succeeds, for every pair of
coefficients including zero and negative ones: no positivity check. -/
theorem mix_construction_no_validation (c1 c2 : ℚ) :
    L1L2MixPenalty.mk? c1 c2 = Except.ok ⟨c1, c2⟩ :=
  rfl

/-- C7: for c1, c2 > 0, the mix penalty value is the sum of the L1 value
and the L2 value on the same array. -/
theorem mix_value_decomposition (c1 c2 : ℚ) (A : List ℚ)
    (h1 : 0 < c1) (h2 : 0 < c2) :
    L1L2MixPenalty.value ⟨c1, c2⟩ A =
      L1Penalty.value ⟨c1⟩ A + L2Penalty.value ⟨c2⟩ A :=
  rfl

/-- Witness for C7 at c1 = 1, c2 = 2, A = [4, -1]. -/
theorem mix_value_decomposition_witness :
    L1L2MixPenalty.value ⟨1, 2⟩ [4, -1] =
      L1Penalty.value ⟨1⟩ [4, -1] + L2Penalty.value ⟨2⟩ [4, -1] :=
  mix_value_decomposition 1 2 [4, -1] (by norm_num) (by norm_num)

/-- C8: concrete scenario on A = [-2, 0, 3] with coefficient 0.5: the
values are 2.5, 3.25 and 5.75 and the gradients are [-0.5, 0, 0.5],
[-1, 0, 1.5] and [-1.5, 0, 2]. -/
theorem concrete_scenario_spec :
    L1Penalty.value ⟨1 / 2⟩ [-2, 0, 3] = 5 / 2 ∧
    L1Penalty.grad ⟨1 / 2⟩ [-2, 0, 3] = [-(1 / 2), 0, 1 / 2] ∧
    L2Penalty.value ⟨1 / 2⟩ [-2, 0, 3] = 13 / 4 ∧
    L2Penalty.grad ⟨1 / 2⟩ [-2, 0, 3] = [-1, 0, 3 / 2] ∧
    L1L2MixPenalty.value ⟨1 / 2, 1 / 2⟩ [-2, 0, 3] = 23 / 4 ∧
    L1L2MixPenalty.grad ⟨1 / 2, 1 / 2⟩ [-2, 0, 3] = [-(3 / 2), 0, 2] := by
  refine ⟨?_, ?_, ?_, ?_, ?_, ?_⟩ <;>
    simp [L1Penalty.value, L1Penalty.grad, L2Penalty.value, L2Penalty.grad,
      L1L2MixPenalty.value, L1L2MixPenalty.grad, npSum, npAbs, npSquare,
      npSignArr, npSign, smul, addArr] <;> norm_num

/-- C9: the state-passing forms of all six operations return the object and
the input array unchanged, together with the pure result: value and grad
are pure functions of the array and the construction-time coefficients. -/
theorem purity_spec (p : L1Penalty) (q : L2Penalty) (m : L1L2MixPenalty)
    (A : List ℚ) :
    p.callS A = (p.value A, p, A) ∧ p.gradS A = (p.grad A, p, A) ∧
    q.callS A = (q.value A, q, A) ∧ q.gradS A = (q.grad A, q, A) ∧
    m.callS A = (m.value A, m, A) ∧ m.gradS A = (m.grad A, m, A) :=
  ⟨rfl, rfl, rfl, rfl, rfl, rfl⟩

/-- C10: for c1, c2 > 0, the mix penalty gradient is the elementwise sum
of the L1 gradient and the L2 gradient, and keeps the input's shape. -/
theorem mix_grad_decomposition (c1 c2 : ℚ) (A : List ℚ)
    (h1 : 0 < c1) (h2 : 0 < c2) :
    (L1L2MixPenalty.grad ⟨c1, c2⟩ A).length = A.length ∧
    L1L2MixPenalty.grad ⟨c1, c2⟩ A =
      List.zipWith (fun x y => x + y)
        (L1Penalty.grad ⟨c1⟩ A) (L2Penalty.grad ⟨c2⟩ A) := by
  constructor
  · simp [L1L2MixPenalty.grad, addArr, smul, npSignArr]
  · rfl

/-- Witness for C10 at c1 = 1, c2 = 2, A = [4, 0, -1]. -/
theorem mix_grad_decomposition_witness :
    (L1L2MixPenalty.grad ⟨1, 2⟩ [4, 0, -1]).length =
      ([4, 0, -1] : List ℚ).length ∧
    L1L2MixPenalty.grad ⟨1, 2⟩ [4, 0, -1] =
      List.zipWith (fun x y => x + y)
        (L1Penalty.grad ⟨1⟩ [4, 0, -1]) (L2Penalty.grad ⟨2⟩ [4, 0, -1]) :=
  mix_grad_decomposition 1 2 [4, 0, -1] (by norm_num) (by norm_num)

end Penalties
